import Mathlib

/-!
Verification of `TextractAPI/handler.py`, a serverless document-text-extraction
service.  The handler exposes four AWS Lambda entry points:

  * `create_file`  — ingest: decode a base64 file from the request body, put a
    DynamoDB item `(file_id, status = UPLOADING)`, upload the bytes to S3, then
    update the item to `status = UPLOADED`; any exception yields a 500 response.
  * `process_file` — extraction trigger: fetch the object from S3, call
    Textract `detect_document_text`, join the `Text` of the `LINE` blocks with
    single spaces, and upsert `(status = PROCESSED, text)` into DynamoDB.
  * `make_callback` — DynamoDB-stream observer: for each `MODIFY` record whose
    `NewImage.status == COMPLETED`, POST `(file_id, text)` to the image's
    `callback_url`; the response status code is only logged.
  * `get_file`     — query: return `(file_id, status, text?)` or a 404.

The embedding is a shallow one: the DynamoDB table and the S3 bucket become an
explicit `World` record threaded through each handler; the fallible external
calls (JSON/base64 parsing, DynamoDB writes, S3 writes, Textract) become
oracle parameters, `none`/`false` marking the call that raises.  A Python
exception caught by a handler's blanket `except` becomes a 500 response with
the world rolled forward only through the writes that had already succeeded;
an uncaught exception (a `KeyError` in `make_callback`) becomes an error value.
-/

/-- A DynamoDB item of the files table.  The code writes only the attributes
`file_id`, `status` and `text`; `callback_url` is carried because the stream
observer reads it, but no handler ever writes it. -/
structure Item where
  file_id : String
  status : String
  text : Option String
  callback_url : Option String
deriving DecidableEq, Repr

/-- The files table: at most one item per `file_id`. -/
abbrev Ledger := List Item

/-- `table.get_item(Key)`: the item with the given key, if present. -/
def ddbGet (l : Ledger) (k : String) : Option Item :=
  l.find? (fun it => it.file_id == k)

/-- Store an item under its key, replacing any previous item with that key
(DynamoDB `put_item` semantics, also the final step of `update_item`). -/
def setItem (l : Ledger) (it : Item) : Ledger :=
  it :: l.filter (fun j => j.file_id != it.file_id)

/-- `update_item` with `SET #st = :s` — an upsert: if an item with the key
exists only its `status` attribute changes, otherwise a fresh item holding
just the key and `status` is created. -/
def updateStatus (l : Ledger) (k s : String) : Ledger :=
  match ddbGet l k with
  | some it => setItem l { it with status := s }
  | none => setItem l ⟨k, s, none, none⟩

/-- `update_item` with `SET #st = :s, #txt = :t` — the upsert performed by
`process_file`: `status` and `text` change, other attributes persist. -/
def updateStatusText (l : Ledger) (k s t : String) : Ledger :=
  match ddbGet l k with
  | some it => setItem l { it with status := s, text := some t }
  | none => setItem l ⟨k, s, some t, none⟩

/-- The S3 bucket: object key to content (the deployment uses the single
bucket `BUCKET_NAME`, so keys alone identify objects). -/
abbrev Blobs := List (String × String)

/-- `s3_client.put_object`. -/
def blobPut (bs : Blobs) (k v : String) : Blobs :=
  (k, v) :: bs.filter (fun p => p.1 != k)

/-- `s3_client.get_object` followed by `.read()`, as far as it succeeds. -/
def blobGet (bs : Blobs) (k : String) : Option String :=
  (bs.find? (fun p => p.1 == k)).map (fun p => p.2)

/-- The durable state the handlers share: the DynamoDB table and the S3
bucket. -/
structure World where
  ledger : Ledger
  blobs : Blobs
deriving DecidableEq, Repr

/-- The JSON body of a handler's HTTP response, structurally. -/
inductive Body
  | fileId (id : String)
  | error (msg : String)
  | fileView (file_id status : String) (text : Option String)
  | processed (file_id status : String)
deriving DecidableEq, Repr

/-- An HTTP response as the handlers build it. -/
structure HttpResp where
  statusCode : Nat
  body : Body
deriving DecidableEq, Repr

/-- `create_file`.  `parsed` is the outcome of `json.loads(event['body'])`,
`body['file']` and `base64.b64decode` (`none` means one of them raised);
`reqCallback` is any callback URL the request body may carry — the code never
reads it; `fileId` is the generated `uuid4`; `putOk`, `s3Ok`, `updOk` tell
whether the DynamoDB put, the S3 put and the DynamoDB update succeed.  Every
exception is caught by the handler's blanket `except` and turned into a 500
response, leaving behind exactly the writes that had already happened. -/
def create_file (parsed : Option String) (reqCallback : Option String)
    (fileId : String) (putOk s3Ok updOk : Bool) (w : World) :
    HttpResp × World :=
  match parsed with
  | none => (⟨500, Body.error "malformed body"⟩, w)
  | some content =>
    if putOk then
      let w1 : World := { w with ledger := setItem w.ledger ⟨fileId, "UPLOADING", none, none⟩ }
      if s3Ok then
        let w2 : World := { w1 with blobs := blobPut w1.blobs fileId content }
        if updOk then
          let w3 : World := { w2 with ledger := updateStatus w2.ledger fileId "UPLOADED" }
          (⟨200, Body.fileId fileId⟩, w3)
        else (⟨500, Body.error "ledger update failed"⟩, w2)
      else (⟨500, Body.error "blob write failed"⟩, w1)
    else (⟨500, Body.error "ledger put failed"⟩, w)

/-- A block of a Textract `detect_document_text` response. -/
structure Block where
  BlockType : String
  Text : String
deriving DecidableEq, Repr

/-- `" ".join(item['Text'] for item in blocks if item['BlockType'] == 'LINE')`. -/
def detected_text (blocks : List Block) : String :=
  String.intercalate " "
    ((blocks.filter (fun b => b.BlockType == "LINE")).map (fun b => b.Text))

/-- `process_file`.  `objectKey` comes from the S3 event record; `textractFn`
is the Textract adapter applied to the object's bytes (`none` means the call
raised); `updOk` tells whether the DynamoDB update succeeds.  The handler
never reads the item first: its only table access is the unconditional
`update_item` upsert of `status = PROCESSED` and `text`.  Any exception is
caught and turned into a 500 response with no compensating table write. -/
def process_file (objectKey : String) (textractFn : String → Option (List Block))
    (updOk : Bool) (w : World) : HttpResp × World :=
  match blobGet w.blobs objectKey with
  | none => (⟨500, Body.error "get object failed"⟩, w)
  | some content =>
    match textractFn content with
    | none => (⟨500, Body.error "textract failed"⟩, w)
    | some blocks =>
      let t := detected_text blocks
      if updOk then
        (⟨200, Body.processed objectKey "PROCESSED"⟩,
          { w with ledger := updateStatusText w.ledger objectKey "PROCESSED" t })
      else (⟨500, Body.error "ledger update failed"⟩, w)

/-- A DynamoDB-stream `NewImage`.  `file_id` and `status` are plain fields
because every write path of the table sets them; `callback_url` and `text`
are optional — `new_image['callback_url']['S']` raises a `KeyError` when the
attribute is absent. -/
structure StreamImage where
  file_id : String
  status : String
  callback_url : Option String
  text : Option String
deriving DecidableEq, Repr

/-- A DynamoDB-stream record as `make_callback` reads it. -/
structure StreamRecord where
  eventName : String
  newImage : StreamImage
deriving DecidableEq, Repr

/-- One `requests.post(callback_url, json=...)` call. -/
structure Post where
  url : String
  file_id : String
  text : String
deriving DecidableEq, Repr

/-- The loop body of `make_callback`: the list of POSTs performed, in order,
and `some msg` when a `KeyError` escapes (aborting the loop; the POSTs already
made stay made).  A record participates only when its `eventName` is `MODIFY`
and its image's `status` is `COMPLETED`; the response of each POST is only
logged, so nothing downstream depends on it. -/
def mcLoop : List StreamRecord → List Post × Option String
  | [] => ([], none)
  | r :: rs =>
    if r.eventName == "MODIFY" then
      if r.newImage.status == "COMPLETED" then
        match r.newImage.callback_url with
        | none => ([], some "KeyError: callback_url")
        | some url =>
          match r.newImage.text with
          | none => ([], some "KeyError: text")
          | some t =>
            let rest := mcLoop rs
            (⟨url, r.newImage.file_id, t⟩ :: rest.1, rest.2)
      else mcLoop rs
    else mcLoop rs

/-- `make_callback`.  `respFn` gives the HTTP status code of each POST — the
code only logs it.  The handler performs no DynamoDB access at all, so the
world passes through unchanged. -/
def make_callback (respFn : Post → Nat) (records : List StreamRecord)
    (w : World) : (List Post × Option String) × World :=
  (mcLoop records, w)

/-- `get_file`.  A read-only handler: look the item up by the path
parameter's `file_id`; found items yield a 200 with `status` and the
possibly-absent `text`, a missing item yields a 404 error body. -/
def get_file (file_id : String) (w : World) : HttpResp :=
  match ddbGet w.ledger file_id with
  | some item => ⟨200, Body.fileView file_id item.status item.text⟩
  | none => ⟨404, Body.error "File not found"⟩

/-! ### Ledger lemmas -/

/-- Looking up the key just stored finds exactly the stored item. -/
theorem ddbGet_setItem_self (l : Ledger) (it : Item) :
    ddbGet (setItem l it) it.file_id = some it := by
  simp [ddbGet, setItem, List.find?]

/-- `ddbGet_setItem_self`, stated through any name of the stored key. -/
theorem ddbGet_setItem (l : Ledger) (it : Item) (k : String)
    (h : it.file_id = k) : ddbGet (setItem l it) k = some it := by
  subst h; exact ddbGet_setItem_self l it

/-- An item found under key `k` carries `k` as its `file_id`. -/
theorem ddbGet_key (l : Ledger) (k : String) (it : Item)
    (h : ddbGet l k = some it) : it.file_id = k := by
  have hp := List.find?_some (by simpa [ddbGet] using h)
  exact eq_of_beq hp

/-- Updating the status of an existing item keeps its other attributes. -/
theorem updateStatus_found (l : Ledger) (it : Item) (k s : String)
    (h : ddbGet l k = some it) :
    ddbGet (updateStatus l k s) k = some { it with status := s } := by
  unfold updateStatus
  rw [h]
  exact ddbGet_setItem l _ k (ddbGet_key l k it h)

/-- Updating the status under a missing key creates a minimal item. -/
theorem updateStatus_missing (l : Ledger) (k s : String)
    (h : ddbGet l k = none) :
    ddbGet (updateStatus l k s) k = some ⟨k, s, none, none⟩ := by
  unfold updateStatus
  rw [h]
  exact ddbGet_setItem l _ k rfl

/-- Updating status and text of an existing item keeps `callback_url`. -/
theorem updateStatusText_found (l : Ledger) (it : Item) (k s t : String)
    (h : ddbGet l k = some it) :
    ddbGet (updateStatusText l k s t) k
      = some { it with status := s, text := some t } := by
  unfold updateStatusText
  rw [h]
  exact ddbGet_setItem l _ k (ddbGet_key l k it h)

/-- Updating status and text under a missing key creates the item. -/
theorem updateStatusText_missing (l : Ledger) (k s t : String)
    (h : ddbGet l k = none) :
    ddbGet (updateStatusText l k s t) k = some ⟨k, s, some t, none⟩ := by
  unfold updateStatusText
  rw [h]
  exact ddbGet_setItem l _ k rfl

/-! ### C9 — query contract -/

/-- C9: for every identity with no ledger record, `get_file` returns a 404
not-found error and never a default or empty document; for every known
identity it returns the stored id, status and (possibly absent) text. -/
theorem C9_get_file_contract (w : World) (fid : String) :
    (ddbGet w.ledger fid = none →
      get_file fid w = ⟨404, Body.error "File not found"⟩) ∧
    (∀ it : Item, ddbGet w.ledger fid = some it →
      get_file fid w = ⟨200, Body.fileView fid it.status it.text⟩) := by
  constructor
  · intro h; simp [get_file, h]
  · intro it h; simp [get_file, h]

/-- C9 witness: a world holding only document `a`; querying `nonexistent`
yields 404, querying `a` yields its stored view. -/
theorem C9_get_file_contract_witness :
    get_file "nonexistent" ⟨[⟨"a", "UPLOADED", none, none⟩], []⟩
        = ⟨404, Body.error "File not found"⟩ ∧
    get_file "a" ⟨[⟨"a", "UPLOADED", none, none⟩], []⟩
        = ⟨200, Body.fileView "a" "UPLOADED" none⟩ :=
  ⟨(C9_get_file_contract ⟨[⟨"a", "UPLOADED", none, none⟩], []⟩ "nonexistent").1
      (by decide),
   (C9_get_file_contract ⟨[⟨"a", "UPLOADED", none, none⟩], []⟩ "a").2
      ⟨"a", "UPLOADED", none, none⟩ (by decide)⟩

/-! ### C10 — extracted text -/

/-- C10: for every successful extraction, the text stored by `process_file`
is exactly the `Text` fields of the `LINE` blocks of the Textract response,
joined in response order with single spaces; other block types contribute
nothing. -/
theorem C10_stored_text_is_line_join (w : World) (key content : String)
    (blocks : List Block) (h : blobGet w.blobs key = some content) :
    (ddbGet (process_file key (fun _ => some blocks) true w).2.ledger key).map
        (fun it => it.text)
      = some (some (String.intercalate " "
          ((blocks.filter (fun b => b.BlockType == "LINE")).map
            (fun b => b.Text)))) := by
  unfold process_file
  simp only [h, if_true]
  cases hit : ddbGet w.ledger key with
  | none =>
    rw [updateStatusText_missing _ _ _ _ hit]
    rfl
  | some it =>
    rw [updateStatusText_found _ _ _ _ _ hit]
    rfl

/-- C10 witness: a response holding two `LINE` blocks and a `WORD` block
stores the two lines joined by one space. -/
theorem C10_stored_text_is_line_join_witness :
    (ddbGet (process_file "d"
        (fun _ => some [⟨"LINE", "hello"⟩, ⟨"WORD", "x"⟩, ⟨"LINE", "world"⟩])
        true ⟨[], [("d", "bytes")]⟩).2.ledger "d").map (fun it => it.text)
      = some (some "hello world") :=
  C10_stored_text_is_line_join ⟨[], [("d", "bytes")]⟩ "d" "bytes"
    [⟨"LINE", "hello"⟩, ⟨"WORD", "x"⟩, ⟨"LINE", "world"⟩] (by decide)

/-! ### C1 — ingest failure leaves the record in UPLOADING, never FAILED -/

/-- C1 counterexample: when the S3 `put_object` fails, `create_file` returns
500 and the freshly created ledger record stays in state `UPLOADING` — it is
not marked `FAILED`. -/
theorem C1_counterexample :
    (create_file (some "doc") none "f1" true false true ⟨[], []⟩).1.statusCode
      = 500 ∧
    ddbGet (create_file (some "doc") none "f1" true false true
        ⟨[], []⟩).2.ledger "f1"
      = some ⟨"f1", "UPLOADING", none, none⟩ := by decide

/-- C1 amended: `create_file` never marks a record `FAILED`.  For a fresh id,
after the call either everything succeeded — 200 response and the record in
`UPLOADED` — or the call failed with a 500 response and the record is either
absent (parse or initial put failed) or stranded in `UPLOADING` (blob write
or status update failed). -/
theorem C1_no_failed_marking (parsed reqCallback : Option String)
    (fileId : String) (putOk s3Ok updOk : Bool) (w : World)
    (hfresh : ddbGet w.ledger fileId = none) :
    ((create_file parsed reqCallback fileId putOk s3Ok updOk w).1.statusCode
        = 200 ∧
      ddbGet (create_file parsed reqCallback fileId putOk s3Ok updOk
          w).2.ledger fileId
        = some ⟨fileId, "UPLOADED", none, none⟩) ∨
    ((create_file parsed reqCallback fileId putOk s3Ok updOk w).1.statusCode
        = 500 ∧
      (ddbGet (create_file parsed reqCallback fileId putOk s3Ok updOk
          w).2.ledger fileId = none ∨
       ddbGet (create_file parsed reqCallback fileId putOk s3Ok updOk
          w).2.ledger fileId
        = some ⟨fileId, "UPLOADING", none, none⟩)) := by
  cases parsed with
  | none => exact Or.inr ⟨rfl, Or.inl hfresh⟩
  | some content =>
    cases putOk with
    | false => exact Or.inr ⟨rfl, Or.inl hfresh⟩
    | true =>
      have h1 : ddbGet (setItem w.ledger ⟨fileId, "UPLOADING", none, none⟩)
          fileId = some ⟨fileId, "UPLOADING", none, none⟩ :=
        ddbGet_setItem _ _ _ rfl
      cases s3Ok with
      | false => exact Or.inr ⟨rfl, Or.inr h1⟩
      | true =>
        cases updOk with
        | false => exact Or.inr ⟨rfl, Or.inr h1⟩
        | true =>
          refine Or.inl ⟨rfl, ?_⟩
          exact updateStatus_found _ _ fileId "UPLOADED" h1

/-- C1 witness: on a fresh world with every step succeeding, the amended
statement holds at concrete inputs. -/
theorem C1_no_failed_marking_witness :
    ddbGet (⟨[], []⟩ : World).ledger "f0" = none ∧
    (((create_file (some "doc") none "f0" true true true ⟨[], []⟩).1.statusCode
        = 200 ∧
      ddbGet (create_file (some "doc") none "f0" true true true
          ⟨[], []⟩).2.ledger "f0" = some ⟨"f0", "UPLOADED", none, none⟩) ∨
    ((create_file (some "doc") none "f0" true true true ⟨[], []⟩).1.statusCode
        = 500 ∧
      (ddbGet (create_file (some "doc") none "f0" true true true
          ⟨[], []⟩).2.ledger "f0" = none ∨
       ddbGet (create_file (some "doc") none "f0" true true true
          ⟨[], []⟩).2.ledger "f0"
        = some ⟨"f0", "UPLOADING", none, none⟩))) :=
  ⟨rfl, C1_no_failed_marking (some "doc") none "f0" true true true ⟨[], []⟩ rfl⟩

/-! ### C8 — malformed input yields 500, not 400 -/

/-- C8 counterexample: a request whose body fails to parse gets a 500
response from `create_file`, not the 400 the claim requires. -/
theorem C8_counterexample :
    (create_file none none "f8" true true true ⟨[], []⟩).1
      = ⟨500, Body.error "malformed body"⟩ := by decide

/-- C8 amended: `create_file` never answers 400: every response is 200 or
500, and a malformed body (unparseable JSON, missing or undecodable file
content) in particular yields 500, the same code as storage and ledger
failures. -/
theorem C8_all_failures_are_500 (parsed reqCallback : Option String)
    (fileId : String) (putOk s3Ok updOk : Bool) (w : World) :
    ((create_file parsed reqCallback fileId putOk s3Ok updOk w).1.statusCode
        = 200 ∨
     (create_file parsed reqCallback fileId putOk s3Ok updOk w).1.statusCode
        = 500) ∧
    (parsed = none →
      (create_file parsed reqCallback fileId putOk s3Ok updOk w).1.statusCode
        = 500) := by
  cases parsed <;> cases putOk <;> cases s3Ok <;> cases updOk <;>
    simp [create_file]

/-- C8 witness: the malformed-body case at concrete inputs gives 500. -/
theorem C8_all_failures_are_500_witness :
    (create_file none none "f8b" true true true ⟨[], []⟩).1.statusCode = 500 :=
  (C8_all_failures_are_500 none none "f8b" true true true ⟨[], []⟩).2 rfl

/-! ### C2 — terminal states are not protected -/

/-- C2 counterexample: a document already in `COMPLETED` is driven back to
`PROCESSED` with fresh text by a later successful `process_file` call — the
state regresses out of a terminal state. -/
theorem C2_counterexample :
    ddbGet (⟨[⟨"d2", "COMPLETED", some "old", none⟩], [("d2", "b")]⟩ :
        World).ledger "d2" = some ⟨"d2", "COMPLETED", some "old", none⟩ ∧
    ddbGet (process_file "d2" (fun _ => some [⟨"LINE", "new text"⟩]) true
        ⟨[⟨"d2", "COMPLETED", some "old", none⟩], [("d2", "b")]⟩).2.ledger "d2"
      = some ⟨"d2", "PROCESSED", some "new text", none⟩ := by decide

/-- C2 amended: there is no terminal-state protection — a successful
`process_file` call overwrites the document's state to `PROCESSED` and
replaces its text whatever the prior state was, `COMPLETED` and `FAILED`
included; only `callback_url` survives. -/
theorem C2_terminal_state_overwritten (w : World) (key st content : String)
    (txt cb : Option String) (blocks : List Block)
    (hit : ddbGet w.ledger key = some ⟨key, st, txt, cb⟩)
    (hb : blobGet w.blobs key = some content) :
    ddbGet (process_file key (fun _ => some blocks) true w).2.ledger key
      = some ⟨key, "PROCESSED", some (detected_text blocks), cb⟩ := by
  unfold process_file
  simp only [hb, if_true]
  exact updateStatusText_found w.ledger _ key "PROCESSED"
    (detected_text blocks) hit

/-- C2 witness: a concrete `COMPLETED` document is overwritten to
`PROCESSED`. -/
theorem C2_terminal_state_overwritten_witness :
    ddbGet (process_file "dw2" (fun _ => some [⟨"LINE", "n"⟩]) true
        ⟨[⟨"dw2", "COMPLETED", some "o", some "u"⟩],
          [("dw2", "c")]⟩).2.ledger "dw2"
      = some ⟨"dw2", "PROCESSED", some "n", some "u"⟩ := by
  exact C2_terminal_state_overwritten
    ⟨[⟨"dw2", "COMPLETED", some "o", some "u"⟩], [("dw2", "c")]⟩
    "dw2" "COMPLETED" "c" (some "o") (some "u") [⟨"LINE", "n"⟩]
    (by decide) (by decide)

/-! ### C5 — extraction failure leaves no trace in the ledger -/

/-- C5 counterexample: the extraction adapter fails on a document in
`UPLOADED`; `process_file` returns 500 and the ledger is untouched — the
record stays `UPLOADED`, it is not transitioned to `FAILED` and no cause is
recorded. -/
theorem C5_counterexample :
    process_file "d5" (fun _ => none) true
        ⟨[⟨"d5", "UPLOADED", none, none⟩], [("d5", "b")]⟩
      = (⟨500, Body.error "textract failed"⟩,
         ⟨[⟨"d5", "UPLOADED", none, none⟩], [("d5", "b")]⟩) ∧
    ddbGet (process_file "d5" (fun _ => none) true
        ⟨[⟨"d5", "UPLOADED", none, none⟩], [("d5", "b")]⟩).2.ledger "d5"
      = some ⟨"d5", "UPLOADED", none, none⟩ := by decide

/-- C5 amended: whenever the extraction adapter raises, `process_file`
returns a 500 response and the whole world — ledger included — is exactly
what it was before the call: no `FAILED` transition, no recorded cause. -/
theorem C5_adapter_failure_leaves_ledger_unchanged (key content : String)
    (updOk : Bool) (w : World) (hb : blobGet w.blobs key = some content) :
    process_file key (fun _ => none) updOk w
      = (⟨500, Body.error "textract failed"⟩, w) := by
  unfold process_file
  simp only [hb]

/-- C5 witness: concrete adapter failure returns 500 with the world
unchanged. -/
theorem C5_adapter_failure_leaves_ledger_unchanged_witness :
    process_file "dw5" (fun _ => none) true ⟨[], [("dw5", "c")]⟩
      = (⟨500, Body.error "textract failed"⟩, ⟨[], [("dw5", "c")]⟩) :=
  C5_adapter_failure_leaves_ledger_unchanged "dw5" "c" true
    ⟨[], [("dw5", "c")]⟩ (by decide)

/-! ### C7 — no state read, no conditional write -/

/-- C7 counterexample: `process_file` on a document in `COMPLETED` — a state
the claim's precondition excludes — is not an idempotent no-op: it answers
200 and rewrites the record to `PROCESSED`. -/
theorem C7_counterexample :
    (process_file "d7" (fun _ => some [⟨"LINE", "x"⟩]) true
        ⟨[⟨"d7", "COMPLETED", some "done", none⟩], [("d7", "b")]⟩).1.statusCode
      = 200 ∧
    ddbGet (process_file "d7" (fun _ => some [⟨"LINE", "x"⟩]) true
        ⟨[⟨"d7", "COMPLETED", some "done", none⟩], [("d7", "b")]⟩).2.ledger
        "d7"
      = some ⟨"d7", "PROCESSED", some "x", none⟩ := by decide

/-- C7 amended: `process_file` never reads the document's ledger state — its
response is the same for any two ledgers over the same blobs — and its only
write is an unconditional upsert: on success the record under the key ends in
`PROCESSED` regardless of the prior ledger content. -/
theorem C7_no_state_read_unconditional_write (key : String)
    (tfn : String → Option (List Block)) (updOk : Bool) (bs : Blobs)
    (l₁ l₂ : Ledger) :
    (process_file key tfn updOk ⟨l₁, bs⟩).1
      = (process_file key tfn updOk ⟨l₂, bs⟩).1 ∧
    (∀ (blocks : List Block) (content : String),
      blobGet bs key = some content → tfn content = some blocks →
      (ddbGet (process_file key tfn true ⟨l₁, bs⟩).2.ledger key).map
          (fun it => it.status)
        = some "PROCESSED") := by
  constructor
  · unfold process_file
    cases hb : blobGet bs key with
    | none => rfl
    | some content =>
      simp only [hb]
      cases ht : tfn content with
      | none => rfl
      | some blocks => cases updOk <;> simp
  · intro blocks content hb ht
    unfold process_file
    simp only [hb, ht, if_true]
    cases hit : ddbGet l₁ key with
    | none => rw [updateStatusText_missing _ _ _ _ hit]; rfl
    | some it => rw [updateStatusText_found _ _ _ _ _ hit]; rfl

/-- C7 witness: on an empty ledger the successful call still ends with the
record in `PROCESSED`. -/
theorem C7_no_state_read_unconditional_write_witness :
    (ddbGet (process_file "dw7" (fun _ => some [⟨"LINE", "z"⟩]) true
        ⟨[], [("dw7", "c")]⟩).2.ledger "dw7").map (fun it => it.status)
      = some "PROCESSED" :=
  (C7_no_state_read_unconditional_write "dw7" (fun _ => some [⟨"LINE", "z"⟩])
      true [("dw7", "c")] [] []).2 [⟨"LINE", "z"⟩] "c" (by decide) rfl

/-! ### C3 — the dispatcher's gate is COMPLETED, not PROCESSED -/

/-- C3: the spec makes the dispatcher act on `MODIFY` records whose image is
in `PROCESSED`, but the code posts nothing for such a record and instead
posts exactly for a `MODIFY` record with status `COMPLETED` — a value no
handler ever writes, so in the deployed pipeline the notification never
fires. -/
theorem C3_dispatch_gate_is_completed_not_processed :
    (make_callback (fun _ => 200)
        [⟨"MODIFY", ⟨"d3", "PROCESSED", some "http://cb3", some "t3"⟩⟩]
        ⟨[], []⟩).1.1 = [] ∧
    (make_callback (fun _ => 200)
        [⟨"MODIFY", ⟨"d3", "COMPLETED", some "http://cb3", some "t3"⟩⟩]
        ⟨[], []⟩).1.1 = [⟨"http://cb3", "d3", "t3"⟩] := by decide

/-! ### C4 — no ledger update after a 2xx callback -/

/-- C4 counterexample: a POST is dispatched and every response is 200 (2xx),
yet the ledger is left exactly as it was — the record stays `PROCESSED`, no
`notified=true, state=COMPLETED` update happens (no `notified` attribute is
ever written at all). -/
theorem C4_counterexample :
    (make_callback (fun _ => 200)
        [⟨"MODIFY", ⟨"d4", "COMPLETED", some "http://cb4", some "t4"⟩⟩]
        ⟨[⟨"d4", "PROCESSED", some "t4", some "http://cb4"⟩], []⟩).1.1
      = [⟨"http://cb4", "d4", "t4"⟩] ∧
    ddbGet (make_callback (fun _ => 200)
        [⟨"MODIFY", ⟨"d4", "COMPLETED", some "http://cb4", some "t4"⟩⟩]
        ⟨[⟨"d4", "PROCESSED", some "t4", some "http://cb4"⟩], []⟩).2.ledger
        "d4"
      = some ⟨"d4", "PROCESSED", some "t4", some "http://cb4"⟩ := by decide

/-- C4 amended: `make_callback` performs no ledger update at all, whatever
the POST responses are — the world passes through unchanged, there is no
`notified` flag, and a re-delivered copy of the same record simply produces a
second identical POST instead of a no-op. -/
theorem C4_no_ledger_update_and_duplicate_posts (respFn : Post → Nat)
    (w : World) (r : StreamRecord) (url t : String)
    (he : r.eventName = "MODIFY") (hs : r.newImage.status = "COMPLETED")
    (hu : r.newImage.callback_url = some url)
    (ht : r.newImage.text = some t) :
    (make_callback respFn [r, r] w).2 = w ∧
    (make_callback respFn [r, r] w).1.1
      = [⟨url, r.newImage.file_id, t⟩, ⟨url, r.newImage.file_id, t⟩] := by
  refine ⟨rfl, ?_⟩
  simp [make_callback, mcLoop, he, hs, hu, ht]

/-- C4 witness: a duplicated `MODIFY`/`COMPLETED` record with 200 responses
leaves the world unchanged and posts twice. -/
theorem C4_no_ledger_update_and_duplicate_posts_witness :
    (make_callback (fun _ => 200)
        [⟨"MODIFY", ⟨"dw4", "COMPLETED", some "u4", some "x4"⟩⟩,
         ⟨"MODIFY", ⟨"dw4", "COMPLETED", some "u4", some "x4"⟩⟩]
        ⟨[], []⟩).2 = ⟨[], []⟩ ∧
    (make_callback (fun _ => 200)
        [⟨"MODIFY", ⟨"dw4", "COMPLETED", some "u4", some "x4"⟩⟩,
         ⟨"MODIFY", ⟨"dw4", "COMPLETED", some "u4", some "x4"⟩⟩]
        ⟨[], []⟩).1.1 = [⟨"u4", "dw4", "x4"⟩, ⟨"u4", "dw4", "x4"⟩] :=
  C4_no_ledger_update_and_duplicate_posts (fun _ => 200) ⟨[], []⟩
    ⟨"MODIFY", ⟨"dw4", "COMPLETED", some "u4", some "x4"⟩⟩ "u4" "x4"
    rfl rfl rfl rfl

/-! ### C6 — callback_url is never persisted and its absence is a KeyError -/

/-- C6 counterexample: the ingest request carries a callback URL, yet the
record `create_file` leaves behind has no `callback_url`; and a `MODIFY`
record in `COMPLETED` whose image lacks `callback_url` makes the dispatcher
raise a `KeyError` — aborting the handler — rather than treating the event as
a no-op. -/
theorem C6_counterexample :
    ddbGet (create_file (some "doc6") (some "http://cb6") "f6" true true true
        ⟨[], []⟩).2.ledger "f6"
      = some ⟨"f6", "UPLOADED", none, none⟩ ∧
    (make_callback (fun _ => 200)
        [⟨"MODIFY", ⟨"f6", "COMPLETED", none, some "t6"⟩⟩] ⟨[], []⟩).1
      = ([], some "KeyError: callback_url") := by decide

/-- C6 amended: `create_file` ignores any callback URL in the request and
writes the record without the attribute; and when the dispatcher reaches a
`MODIFY` record in `COMPLETED` whose image has no `callback_url`, it raises a
`KeyError` (no POST is attempted, the loop aborts) instead of a graceful
no-op. -/
theorem C6_callback_url_never_persisted (content : String)
    (reqCallback : Option String) (fileId : String) (w : World) :
    ddbGet (create_file (some content) reqCallback fileId true true true
        w).2.ledger fileId
      = some ⟨fileId, "UPLOADED", none, none⟩ ∧
    (∀ (respFn : Post → Nat) (r : StreamRecord) (wd : World),
      r.eventName = "MODIFY" → r.newImage.status = "COMPLETED" →
      r.newImage.callback_url = none →
      (make_callback respFn [r] wd).1
        = ([], some "KeyError: callback_url")) := by
  constructor
  · have h1 : ddbGet (setItem w.ledger ⟨fileId, "UPLOADING", none, none⟩)
        fileId = some ⟨fileId, "UPLOADING", none, none⟩ :=
      ddbGet_setItem _ _ _ rfl
    exact updateStatus_found _ _ fileId "UPLOADED" h1
  · intro respFn r wd he hs hu
    simp [make_callback, mcLoop, he, hs, hu]

/-- C6 witness: concrete ingest with a supplied callback URL stores none, and
a concrete `COMPLETED` image without `callback_url` aborts with the
`KeyError`. -/
theorem C6_callback_url_never_persisted_witness :
    ddbGet (create_file (some "c6") (some "http://u6") "fw6" true true true
        ⟨[], []⟩).2.ledger "fw6"
      = some ⟨"fw6", "UPLOADED", none, none⟩ ∧
    (make_callback (fun _ => 200)
        [⟨"MODIFY", ⟨"fw6", "COMPLETED", none, some "t"⟩⟩] ⟨[], []⟩).1
      = ([], some "KeyError: callback_url") :=
  ⟨(C6_callback_url_never_persisted "c6" (some "http://u6") "fw6" ⟨[], []⟩).1,
   (C6_callback_url_never_persisted "c6" (some "http://u6") "fw6" ⟨[], []⟩).2
     (fun _ => 200) ⟨"MODIFY", ⟨"fw6", "COMPLETED", none, some "t"⟩⟩ ⟨[], []⟩
     rfl rfl rfl⟩
